import Mathlib

/-!
Shallow embedding of `gerabaldi/models/physenvs.py`: the measurement
instrument model (`MeasInstrument`), the hierarchical environmental
variation model (`EnvVrtnMdl`) and the test-environment registry
(`PhysTestEnv`).

The external sampling primitive (`RandomVar`) is modelled as an abstract
stream of draws together with an explicit cursor: `stream i` is the value
the i-th draw of that variable produces, and every function that samples
threads the cursor forward by the number of draws it makes.  Python floats
are modelled by `PyFloat` (a rational or a signed infinity); rationals
stand in for the finite floats.
-/

/-- External sampling primitive (`gerabaldi.models.randomvars.RandomVar`):
an abstract stream of independent draws; `stream i` is the i-th value the
generator produces. -/
structure RandomVar where
  stream : Nat → ℚ

/-- `randomvars.Deterministic(val)`: every draw returns `val`. -/
def Deterministic (val : ℚ) : RandomVar := ⟨fun _ => val⟩

/-- A Python float: a finite value (modelled as a rational) or a signed
infinity (`inf true` is `+inf`). -/
inductive PyFloat where
  | fin (q : ℚ)
  | inf (pos : Bool)
deriving DecidableEq

instance : Inhabited PyFloat := ⟨.fin 0⟩

/-- Elementwise addition of a finite error sample to a value
(`Series.add`): infinities absorb the added noise. -/
def PyFloat.addQ : PyFloat → ℚ → PyFloat
  | .fin q, e => .fin (q + e)
  | .inf b, _ => .inf b

/-- Python's `round(x)` to an integer: round-half-to-even. -/
def roundHalfEven (q : ℚ) : ℤ :=
  let f := ⌊q⌋
  let r := q - (f : ℚ)
  if r < 1 / 2 then f
  else if 1 / 2 < r then f + 1
  else if f % 2 = 0 then f else f + 1

/-- Python's `round(x, n)`: round to `n` decimal places (n may be
negative), half-to-even. -/
def pyRound (x : ℚ) (n : ℤ) : ℚ :=
  (roundHalfEven (x * (10 : ℚ) ^ n) : ℚ) / (10 : ℚ) ^ n

/-- The significant-figure rounding of `measure` (physenvs.py line 79):
`round(x, precision - int(floor(log10(abs(x)))) - 1)`. -/
def sigFigRound (precision : ℤ) (x : ℚ) : ℚ :=
  pyRound x (precision - Int.log 10 |x| - 1)

/-- The lambda of physenvs.py line 79: zero and infinite values pass
through unchanged, anything else is rounded to `precision` significant
figures. -/
def precisionApply (precision : ℤ) : PyFloat → PyFloat
  | .fin q => if q = 0 then .fin q else .fin (sigFigRound precision q)
  | .inf b => .inf b

/-- `Series.clip(lower, upper)` on one element: values below `lo` go to
`lo`, values above `hi` go to `hi`. -/
def PyFloat.clip (lo hi : ℚ) : PyFloat → PyFloat
  | .fin q => .fin (min (max q lo) hi)
  | .inf true => .fin hi
  | .inf false => .fin (min lo hi)

/-- `MeasInstrument.__init__`: `_precision`, `_error` and `_range` default
to `None`. -/
structure MeasInstrument where
  name : String
  precision : Option ℤ
  error : Option RandomVar
  range : Option (ℚ × ℚ)

/-- `MeasInstrument(name)` with every capability left at `None`: an ideal
instrument. -/
def MeasInstrument.ideal (name : String) : MeasInstrument :=
  { name := name, precision := none, error := none, range := none }

/-- The polymorphic argument/return value of `measure`: a scalar
(int/float), a 1-D numpy array, or a pandas Series. -/
inductive MeasVals where
  | scalar (x : PyFloat)
  | arr (xs : List PyFloat)
  | series (xs : List PyFloat)
deriving DecidableEq

/-- `pd.Series(meas_vals)`: the internal ordered-sequence form of the
input (a scalar becomes a length-1 series). -/
def MeasVals.toSeries : MeasVals → List PyFloat
  | .scalar x => [x]
  | .arr xs => xs
  | .series xs => xs

/-- The three conditional stages of `measure` (physenvs.py lines 71-82),
in source order: additive error, significant-figure rounding, range
clipping.  The Python guards are truthiness tests, so `precision = 0` is
treated as unconfigured. -/
def MeasInstrument.applyStages (m : MeasInstrument) (xs : List PyFloat) : List PyFloat :=
  let withError := match m.error with
    | some err => xs.mapIdx (fun i x => x.addQ (err.stream i))
    | none => xs
  let withPrecision := match m.precision with
    | some p => if p = 0 then withError else withError.map (precisionApply p)
    | none => withError
  match m.range with
  | some (lo, hi) => withPrecision.map (PyFloat.clip lo hi)
  | none => withPrecision

/-- `MeasInstrument.measure` (physenvs.py lines 49-89): convert the input
to a series, apply the configured stages, convert back to the input's own
type (`meas_vals[0]` for a scalar). -/
def MeasInstrument.measure (m : MeasInstrument) (true_vals : MeasVals) : MeasVals :=
  match true_vals with
  | .scalar _ => .scalar (m.applyStages true_vals.toSeries).headI
  | .arr _ => .arr (m.applyStages true_vals.toSeries)
  | .series _ => .series (m.applyStages true_vals.toSeries)

/-- `gerabaldi.exceptions.InvalidTypeError` as raised by this module. -/
inductive GerabaldiError where
  | invalidType (msg : String)
deriving DecidableEq

/-- How a Python f-string renders an optional name (`None` when absent). -/
def pyStrOpt : Option String → String
  | some s => s
  | none => "None"

/-- `EnvVrtnMdl`: the full stochastic model for variations of one
environmental condition. -/
structure EnvVrtnMdl where
  name : Option String
  vrtn_type : String
  batch_vrtn_mdl : RandomVar
  dev_vrtn_mdl : RandomVar
  chp_vrtn_mdl : RandomVar
  vrtn_op : String

/-- `EnvVrtnMdl.__init__` (physenvs.py lines 97-115): unsupplied
sub-models default to a point mass at the operator's unit (0 for offset,
1 for scaling); a `vrtn_type` outside {scaling, offset} raises
`InvalidTypeError` and no object is produced. -/
def EnvVrtnMdl.init (dev_vrtn_mdl chp_vrtn_mdl batch_vrtn_mdl : Option RandomVar)
    (vrtn_type : String) (mdl_name : Option String) :
    Except GerabaldiError EnvVrtnMdl :=
  if vrtn_type ∉ (["scaling", "offset"] : List String) then
    .error (.invalidType
      ("Latent " ++ pyStrOpt mdl_name ++
        " variation type can only be one of 'scaling', 'offset'."))
  else
    let unitary : ℚ := if vrtn_type = "offset" then 0 else 1
    .ok { name := mdl_name
          vrtn_type := vrtn_type
          batch_vrtn_mdl := batch_vrtn_mdl.getD (Deterministic unitary)
          dev_vrtn_mdl := dev_vrtn_mdl.getD (Deterministic unitary)
          chp_vrtn_mdl := chp_vrtn_mdl.getD (Deterministic unitary)
          vrtn_op := vrtn_type }

/-- `EnvVrtnMdl()`: the all-default model (offset type, every sub-model a
point mass at 0, i.e. no variation). -/
def EnvVrtnMdl.mkDefault : EnvVrtnMdl :=
  { name := none
    vrtn_type := "offset"
    batch_vrtn_mdl := Deterministic 0
    dev_vrtn_mdl := Deterministic 0
    chp_vrtn_mdl := Deterministic 0
    vrtn_op := "offset" }

/-- The combining operator of `gen_env_vrtns` (line 120): multiplication
for scaling, addition for offset. -/
def EnvVrtnMdl.op (m : EnvVrtnMdl) (a b : ℚ) : ℚ :=
  if m.vrtn_op = "scaling" then a * b else a + b

/-- Shape-carrying 3-D value grid, mirroring a numpy array of shape
`(num_lots, num_chps, num_devs)`; `val l c d` is the cell at that index
(only indices within the shape are meaningful). -/
structure NdGrid where
  num_lots : Nat
  num_chps : Nat
  num_devs : Nat
  val : Nat → Nat → Nat → ℚ

/-- A 1-D numpy array (the sensor values). -/
structure Arr1D where
  len : Nat
  val : Nat → ℚ

/-- The sampling cursors of the three sub-models of an `EnvVrtnMdl`: how
many draws each has produced so far. -/
structure VrtnState where
  dev : Nat
  chp : Nat
  batch : Nat
deriving DecidableEq

/-- What one call to `gen_env_vrtns` returns, together with the advanced
sampling cursors. -/
structure VrtnResult where
  grid : NdGrid
  sensors : Option Arr1D
  state : VrtnState

/-- Flat index of cell `(l, c, d)` after
`reshape((num_lots, num_chps, num_devs))` of a flat sample array
(physenvs.py line 125). -/
def devIdx (num_chps num_devs l c d : Nat) : Nat :=
  l * (num_chps * num_devs) + c * num_devs + d

/-- Flat index of `(l, c)` after `reshape((num_lots, num_chps, 1))` of a
flat sample array (line 127). -/
def chpIdx (num_chps l c : Nat) : Nat :=
  l * num_chps + c

/-- The intermediate `vals` grid of `gen_env_vrtns` after the device- and
chip-level combination (lines 122-127), before the batch term is applied:
cell `(l, c, d)` is `op(op(base_val, dev_sample), chp_sample)` where the
device samples are the first `num_lots*num_chps*num_devs` draws of
`dev_vrtn_mdl` and the chip samples the first `num_lots*num_chps` draws
of `chp_vrtn_mdl` made by the call. -/
def EnvVrtnMdl.gridPreBatch (m : EnvVrtnMdl) (base_val : ℚ)
    (num_devs num_chps _num_lots : Nat) (s : VrtnState) : Nat → Nat → Nat → ℚ :=
  fun l c d =>
    m.op (m.op base_val (m.dev_vrtn_mdl.stream (s.dev + devIdx num_chps num_devs l c d)))
      (m.chp_vrtn_mdl.stream (s.chp + chpIdx num_chps l c))

/-- The sensor values of lines 131-133 before the batch term: a flat
array of `sensor_count` fresh device- and chip-level draws (made after
the grid's draws) combined with `base_val`. -/
def EnvVrtnMdl.sensorPreBatch (m : EnvVrtnMdl) (base_val : ℚ)
    (num_devs num_chps num_lots : Nat) (s : VrtnState) : Nat → ℚ :=
  fun j =>
    m.op (m.op base_val (m.dev_vrtn_mdl.stream (s.dev + num_lots * num_chps * num_devs + j)))
      (m.chp_vrtn_mdl.stream (s.chp + num_lots * num_chps + j))

/-- `EnvVrtnMdl.gen_env_vrtns` (physenvs.py lines 117-135).  A batch
sample is drawn at line 129; when `sensor_count` is nonzero that one
sample is combined into both the device grid and the sensor array; when
`sensor_count` is zero the code instead combines `batch_vrtn_mdl.sample(1)`
(line 135), a second, fresh draw, into the grid (the line-129 draw is
discarded but consumed). -/
def EnvVrtnMdl.gen_env_vrtns (m : EnvVrtnMdl) (base_val : ℚ) (sensor_count : Nat)
    (num_devs num_chps num_lots : Nat) (s : VrtnState) : VrtnResult :=
  let batch_vrtn := m.batch_vrtn_mdl.stream s.batch
  if sensor_count ≠ 0 then
    { grid := ⟨num_lots, num_chps, num_devs, fun l c d =>
        m.op (m.gridPreBatch base_val num_devs num_chps num_lots s l c d) batch_vrtn⟩
      sensors := some ⟨sensor_count, fun j =>
        m.op (m.sensorPreBatch base_val num_devs num_chps num_lots s j) batch_vrtn⟩
      state := ⟨s.dev + num_lots * num_chps * num_devs + sensor_count,
                s.chp + num_lots * num_chps + sensor_count,
                s.batch + 1⟩ }
  else
    { grid := ⟨num_lots, num_chps, num_devs, fun l c d =>
        m.op (m.gridPreBatch base_val num_devs num_chps num_lots s l c d)
          (m.batch_vrtn_mdl.stream (s.batch + 1))⟩
      sensors := none
      state := ⟨s.dev + num_lots * num_chps * num_devs,
                s.chp + num_lots * num_chps,
                s.batch + 2⟩ }

/-- The dynamic attribute registry of `PhysTestEnv`: `vrtn_mdls` models
the `<prm>_var` attributes and `meas_instms` the `<prm>_instm`
attributes (the two suffix namespaces cannot collide). -/
structure PhysTestEnv where
  name : String
  vrtn_mdls : List (String × EnvVrtnMdl)
  meas_instms : List (String × MeasInstrument)

/-- `getattr` semantics over a list of `setattr` calls: the last binding
of a key wins. -/
def lookupAttr {α : Type} (l : List (String × α)) (k : String) : Option α :=
  (l.reverse.find? (fun p => p.1 == k)).map Prod.snd

/-- Result of `PhysTestEnv.__init__`: the constructed environment plus
the post-call states of the model and instrument objects the caller
passed in (Python aliases them, so the renaming the constructor performs
is visible to the caller). -/
structure PhysTestEnvInit where
  env : PhysTestEnv
  env_vrtns_after : List EnvVrtnMdl
  meas_instms_after : List MeasInstrument

/-- `PhysTestEnv.__init__` with dict-form arguments (physenvs.py lines
161-192): each passed object's `name` is overwritten with its dict key
(lines 179, 185), then the objects are registered under
`<name>_var` / `<name>_instm`. -/
def PhysTestEnv.initFromDicts (env_vrtns : List (String × EnvVrtnMdl))
    (meas_instms : List (String × MeasInstrument)) (env_name : String) :
    PhysTestEnvInit :=
  let vrtns := env_vrtns.map (fun p => { p.2 with name := some p.1 })
  let instms := meas_instms.map (fun p => { p.2 with name := p.1 })
  { env := { name := env_name
             vrtn_mdls := vrtns.map (fun m => (pyStrOpt m.name, m))
             meas_instms := instms.map (fun i => (i.name, i)) }
    env_vrtns_after := vrtns
    meas_instms_after := instms }

/-- `PhysTestEnv.get_meas_instm` (lines 194-208): registry lookup with an
ideal `MeasInstrument(prm)` as the fallback. -/
def PhysTestEnv.get_meas_instm (env : PhysTestEnv) (prm : String) : MeasInstrument :=
  (lookupAttr env.meas_instms prm).getD (MeasInstrument.ideal prm)

/-- `PhysTestEnv.get_vrtn_mdl` (lines 210-224): registry lookup with a
default `EnvVrtnMdl()` as the fallback. -/
def PhysTestEnv.get_vrtn_mdl (env : PhysTestEnv) (prm : String) : EnvVrtnMdl :=
  (lookupAttr env.vrtn_mdls prm).getD EnvVrtnMdl.mkDefault

/-- `num_vals` of `gen_env_cond_vals`: a bare int or a
`(num_lots, num_chps, num_devs)` triple. -/
def NumVals : Type := Nat ⊕ (Nat × Nat × Nat)

/-- Python truthiness of the optional `sensor_counts` dict: `None` and
the empty dict are falsy. -/
def scFalsy : Option (List (String × Nat)) → Bool
  | none => true
  | some l => l.isEmpty

/-- `sensor_counts[cond]` lookup (`None`-safe). -/
def scLookup (sensor_counts : Option (List (String × Nat))) (cond : String) : Option Nat :=
  match sensor_counts with
  | none => none
  | some l => (l.find? (fun p => p.1 == cond)).map Prod.snd

/-- The per-condition loop of `gen_env_cond_vals` (lines 249-255).  A
condition listed in `sensor_counts` is unpacked as a pair
`true_vals[cond], sensor_vals[cond]`; when `gen_env_vrtns` returned a
bare grid (sensor count 0) that unpacking fails, modelled as an error. -/
def genCondLoop (env : PhysTestEnv) (nv : Nat × Nat × Nat)
    (sensor_counts : Option (List (String × Nat))) (st : String → VrtnState) :
    List (String × ℚ) →
      Except String (List (String × NdGrid) × List (String × Arr1D))
  | [] => .ok ([], [])
  | (cond, base) :: rest =>
    let mdl := env.get_vrtn_mdl cond
    if scFalsy sensor_counts || (scLookup sensor_counts cond).isNone then
      let r := mdl.gen_env_vrtns base 0 nv.2.2 nv.2.1 nv.1 (st cond)
      (genCondLoop env nv sensor_counts st rest).map
        (fun p => ((cond, r.grid) :: p.1, p.2))
    else
      let count := (scLookup sensor_counts cond).getD 0
      let r := mdl.gen_env_vrtns base count nv.2.2 nv.2.1 nv.1 (st cond)
      match r.sensors with
      | some sarr =>
        (genCondLoop env nv sensor_counts st rest).map
          (fun p => ((cond, r.grid) :: p.1, (cond, sarr) :: p.2))
      | none => .error ("cannot unpack the bare device grid of " ++ cond)

/-- `PhysTestEnv.gen_env_cond_vals` (lines 226-262): an integer
`num_vals` is read as `(1, 1, num_vals)`; `st` carries each condition
model's current sampling cursors. -/
def PhysTestEnv.gen_env_cond_vals (env : PhysTestEnv) (base_vals : List (String × ℚ))
    (num_vals : NumVals) (sensor_counts : Option (List (String × Nat)))
    (st : String → VrtnState) :
    Except String (List (String × NdGrid) × List (String × Arr1D)) :=
  let nv : Nat × Nat × Nat := match num_vals with
    | .inl n => (1, 1, n)
    | .inr t => t
  (genCondLoop env nv sensor_counts st base_vals).map
    (fun p => if scFalsy sensor_counts then (p.1, []) else p)

example : EnvVrtnMdl.init none none none "offset" none = .ok EnvVrtnMdl.mkDefault := rfl
example : EnvVrtnMdl.mkDefault.op 3 4 = 7 := by
  simp only [EnvVrtnMdl.op, EnvVrtnMdl.mkDefault]
  rw [if_neg (by decide)]
  norm_num
example : roundHalfEven (1 / 2) = 0 := by
  have h : (⌊(1 / 2 : ℚ)⌋ : ℤ) = 0 := by
    rw [Int.floor_eq_iff]
    norm_num
  simp only [roundHalfEven, h]
  norm_num
example : roundHalfEven (61728 / 500) = 123 := by
  have h : (⌊(61728 / 500 : ℚ)⌋ : ℤ) = 123 := by
    rw [Int.floor_eq_iff]
    norm_num
  simp only [roundHalfEven, h]
  norm_num

/-! ## Helper lemmas -/

lemma EnvVrtnMdl.op_eq_add {m : EnvVrtnMdl} (h : m.vrtn_op ≠ "scaling") (a b : ℚ) :
    m.op a b = a + b := if_neg h

lemma EnvVrtnMdl.op_eq_mul {m : EnvVrtnMdl} (h : m.vrtn_op = "scaling") (a b : ℚ) :
    m.op a b = a * b := if_pos h

lemma EnvVrtnMdl.gen_env_vrtns_of_ne (m : EnvVrtnMdl) (base : ℚ)
    (sc num_devs num_chps num_lots : Nat) (s : VrtnState) (h : sc ≠ 0) :
    m.gen_env_vrtns base sc num_devs num_chps num_lots s =
      { grid := ⟨num_lots, num_chps, num_devs, fun l c d =>
          m.op (m.gridPreBatch base num_devs num_chps num_lots s l c d)
            (m.batch_vrtn_mdl.stream s.batch)⟩
        sensors := some ⟨sc, fun j =>
          m.op (m.sensorPreBatch base num_devs num_chps num_lots s j)
            (m.batch_vrtn_mdl.stream s.batch)⟩
        state := ⟨s.dev + num_lots * num_chps * num_devs + sc,
                  s.chp + num_lots * num_chps + sc,
                  s.batch + 1⟩ } := by
  simp only [EnvVrtnMdl.gen_env_vrtns]
  rw [if_pos h]

lemma EnvVrtnMdl.gen_env_vrtns_zero (m : EnvVrtnMdl) (base : ℚ)
    (num_devs num_chps num_lots : Nat) (s : VrtnState) :
    m.gen_env_vrtns base 0 num_devs num_chps num_lots s =
      { grid := ⟨num_lots, num_chps, num_devs, fun l c d =>
          m.op (m.gridPreBatch base num_devs num_chps num_lots s l c d)
            (m.batch_vrtn_mdl.stream (s.batch + 1))⟩
        sensors := none
        state := ⟨s.dev + num_lots * num_chps * num_devs,
                  s.chp + num_lots * num_chps,
                  s.batch + 2⟩ } := by
  simp only [EnvVrtnMdl.gen_env_vrtns]
  rw [if_neg (by simp)]

lemma flatPairIdx_inj {B a r a' r' : Nat} (hr : r < B) (hr' : r' < B)
    (h : a * B + r = a' * B + r') : a = a' ∧ r = r' := by
  have hb : 0 < B := lt_of_le_of_lt (Nat.zero_le r) hr
  have e1 : (B * a + r) / B = a := by
    rw [Nat.mul_add_div hb, Nat.div_eq_of_lt hr, Nat.add_zero]
  have e2 : (B * a' + r') / B = a' := by
    rw [Nat.mul_add_div hb, Nat.div_eq_of_lt hr', Nat.add_zero]
  have h' : B * a + r = B * a' + r' := by
    rw [Nat.mul_comm B a, Nat.mul_comm B a']
    exact h
  have ha : a = a' := by rw [← e1, ← e2, h']
  refine ⟨ha, ?_⟩
  subst ha
  have h'' : a * B + r = a * B + r' := h
  exact Nat.add_left_cancel h''

lemma chpIdx_inj {C l c l' c' : Nat} (hc : c < C) (hc' : c' < C) :
    chpIdx C l c = chpIdx C l' c' ↔ (l, c) = (l', c') := by
  constructor
  · intro h
    obtain ⟨h1, h2⟩ := flatPairIdx_inj hc hc' h
    rw [h1, h2]
  · intro h
    cases h
    rfl

lemma rowMinor_lt {C D c d : Nat} (hc : c < C) (hd : d < D) : c * D + d < C * D :=
  calc c * D + d < c * D + D := Nat.add_lt_add_left hd _
    _ = (c + 1) * D := (Nat.succ_mul c D).symm
    _ ≤ C * D := Nat.mul_le_mul_right D hc

lemma devIdx_inj {C D l c d l' c' d' : Nat} (hc : c < C) (hd : d < D)
    (hc' : c' < C) (hd' : d' < D) :
    devIdx C D l c d = devIdx C D l' c' d' ↔ (l, c, d) = (l', c', d') := by
  constructor
  · intro h
    have h0 : l * (C * D) + (c * D + d) = l' * (C * D) + (c' * D + d') := by
      simpa [devIdx, Nat.add_assoc] using h
    obtain ⟨h1, h2⟩ := flatPairIdx_inj (rowMinor_lt hc hd) (rowMinor_lt hc' hd') h0
    obtain ⟨h3, h4⟩ := flatPairIdx_inj hd hd' h2
    rw [h1, h3, h4]
  · intro h
    cases h
    rfl

lemma devIdx_lt {C D L l c d : Nat} (hl : l < L) (hc : c < C) (hd : d < D) :
    devIdx C D l c d < L * C * D := by
  have : devIdx C D l c d < (l + 1) * (C * D) := by
    simp only [devIdx, Nat.succ_mul, Nat.add_assoc]
    exact Nat.add_lt_add_left (rowMinor_lt hc hd) _
  calc devIdx C D l c d < (l + 1) * (C * D) := this
    _ ≤ L * (C * D) := Nat.mul_le_mul_right (C * D) hl
    _ = L * C * D := (Nat.mul_assoc L C D).symm

lemma chpIdx_lt {C L l c : Nat} (hl : l < L) (hc : c < C) : chpIdx C l c < L * C :=
  calc chpIdx C l c = l * C + c := rfl
    _ < l * C + C := Nat.add_lt_add_left hc _
    _ = (l + 1) * C := (Nat.succ_mul l C).symm
    _ ≤ L * C := Nat.mul_le_mul_right C hl

/-! ## Claims -/

/-- C1: with `sensor_count > 0`, the batch term combined into the sensor
array is the very same draw (`batch_vrtn_mdl.stream s.batch`, the single
line-129 sample) as the one combined into every cell of the device grid;
removing the batch contribution (subtracting for offset, dividing for
scaling) from any grid cell and from any sensor value recovers that
identical constant. -/
theorem C1_shared_batch_term (m : EnvVrtnMdl) (base : ℚ)
    (sc num_devs num_chps num_lots : Nat) (s : VrtnState) (hsc : 0 < sc) :
    ∃ g : Arr1D,
      (m.gen_env_vrtns base sc num_devs num_chps num_lots s).sensors = some g ∧
      g.len = sc ∧
      (∀ l c d, (m.gen_env_vrtns base sc num_devs num_chps num_lots s).grid.val l c d =
          m.op (m.gridPreBatch base num_devs num_chps num_lots s l c d)
            (m.batch_vrtn_mdl.stream s.batch)) ∧
      (∀ j, g.val j =
          m.op (m.sensorPreBatch base num_devs num_chps num_lots s j)
            (m.batch_vrtn_mdl.stream s.batch)) ∧
      (m.vrtn_op = "offset" → ∀ l c d j,
          (m.gen_env_vrtns base sc num_devs num_chps num_lots s).grid.val l c d -
              m.gridPreBatch base num_devs num_chps num_lots s l c d =
            m.batch_vrtn_mdl.stream s.batch ∧
          g.val j - m.sensorPreBatch base num_devs num_chps num_lots s j =
            m.batch_vrtn_mdl.stream s.batch) ∧
      (m.vrtn_op = "scaling" → ∀ l c d j,
          (m.gridPreBatch base num_devs num_chps num_lots s l c d ≠ 0 →
            (m.gen_env_vrtns base sc num_devs num_chps num_lots s).grid.val l c d /
                m.gridPreBatch base num_devs num_chps num_lots s l c d =
              m.batch_vrtn_mdl.stream s.batch) ∧
          (m.sensorPreBatch base num_devs num_chps num_lots s j ≠ 0 →
            g.val j / m.sensorPreBatch base num_devs num_chps num_lots s j =
              m.batch_vrtn_mdl.stream s.batch)) := by
  rw [m.gen_env_vrtns_of_ne base sc num_devs num_chps num_lots s hsc.ne']
  refine ⟨_, rfl, rfl, fun l c d => rfl, fun j => rfl, ?_, ?_⟩
  · intro hop l c d j
    have hne : m.vrtn_op ≠ "scaling" := by rw [hop]; decide
    constructor
    · simp only [EnvVrtnMdl.op_eq_add hne]
      ring
    · simp only [EnvVrtnMdl.op_eq_add hne]
      ring
  · intro hop l c d j
    constructor
    · intro hne
      simp only [EnvVrtnMdl.op_eq_mul hop]
      exact mul_div_cancel_left₀ _ hne
    · intro hne
      simp only [EnvVrtnMdl.op_eq_mul hop]
      exact mul_div_cancel_left₀ _ hne

/-- A concrete scaling model with three distinct non-constant streams. -/
def mdlShared : EnvVrtnMdl :=
  { name := some "temp"
    vrtn_type := "scaling"
    batch_vrtn_mdl := ⟨fun n => (n : ℚ) + 7⟩
    dev_vrtn_mdl := ⟨fun n => (n : ℚ) + 1⟩
    chp_vrtn_mdl := ⟨fun n => (n : ℚ) + 3⟩
    vrtn_op := "scaling" }

/-- Witness for C1 at a concrete model, base value 5, two sensors and a
1x1x1 grid. -/
theorem C1_shared_batch_term_witness :
    0 < 2 ∧
    ∃ g : Arr1D,
      (mdlShared.gen_env_vrtns 5 2 1 1 1 ⟨0, 0, 0⟩).sensors = some g ∧
      g.len = 2 ∧
      (∀ l c d, (mdlShared.gen_env_vrtns 5 2 1 1 1 ⟨0, 0, 0⟩).grid.val l c d =
          mdlShared.op (mdlShared.gridPreBatch 5 1 1 1 ⟨0, 0, 0⟩ l c d)
            (mdlShared.batch_vrtn_mdl.stream 0)) ∧
      (∀ j, g.val j =
          mdlShared.op (mdlShared.sensorPreBatch 5 1 1 1 ⟨0, 0, 0⟩ j)
            (mdlShared.batch_vrtn_mdl.stream 0)) ∧
      (mdlShared.vrtn_op = "offset" → ∀ l c d j,
          (mdlShared.gen_env_vrtns 5 2 1 1 1 ⟨0, 0, 0⟩).grid.val l c d -
              mdlShared.gridPreBatch 5 1 1 1 ⟨0, 0, 0⟩ l c d =
            mdlShared.batch_vrtn_mdl.stream 0 ∧
          g.val j - mdlShared.sensorPreBatch 5 1 1 1 ⟨0, 0, 0⟩ j =
            mdlShared.batch_vrtn_mdl.stream 0) ∧
      (mdlShared.vrtn_op = "scaling" → ∀ l c d j,
          (mdlShared.gridPreBatch 5 1 1 1 ⟨0, 0, 0⟩ l c d ≠ 0 →
            (mdlShared.gen_env_vrtns 5 2 1 1 1 ⟨0, 0, 0⟩).grid.val l c d /
                mdlShared.gridPreBatch 5 1 1 1 ⟨0, 0, 0⟩ l c d =
              mdlShared.batch_vrtn_mdl.stream 0) ∧
          (mdlShared.sensorPreBatch 5 1 1 1 ⟨0, 0, 0⟩ j ≠ 0 →
            g.val j / mdlShared.sensorPreBatch 5 1 1 1 ⟨0, 0, 0⟩ j =
              mdlShared.batch_vrtn_mdl.stream 0)) :=
  ⟨Nat.succ_pos 1, C1_shared_batch_term mdlShared 5 2 1 1 1 ⟨0, 0, 0⟩ (Nat.succ_pos 1)⟩

/-- C2 evidence: with `sensor_count = 0` the call consumes TWO batch
draws (the line-129 draw is discarded and line 135 draws again), and it
is the second draw, at cursor `s.batch + 1`, that is combined into every
grid cell; with `sensor_count > 0` exactly one batch draw is consumed. -/
theorem C2_batch_drawn_twice_when_no_sensors (m : EnvVrtnMdl) (base : ℚ)
    (num_devs num_chps num_lots : Nat) (s : VrtnState) :
    ((m.gen_env_vrtns base 0 num_devs num_chps num_lots s).state.batch = s.batch + 2) ∧
    (∀ l c d, (m.gen_env_vrtns base 0 num_devs num_chps num_lots s).grid.val l c d =
        m.op (m.gridPreBatch base num_devs num_chps num_lots s l c d)
          (m.batch_vrtn_mdl.stream (s.batch + 1))) ∧
    (∀ sc, sc ≠ 0 →
      (m.gen_env_vrtns base sc num_devs num_chps num_lots s).state.batch = s.batch + 1) := by
  rw [m.gen_env_vrtns_zero base num_devs num_chps num_lots s]
  refine ⟨rfl, fun l c d => rfl, fun sc hsc => ?_⟩
  rw [m.gen_env_vrtns_of_ne base sc num_devs num_chps num_lots s hsc]

/-- C3: the device grid is built from exactly
`num_lots * num_chps * num_devs` device-level draws — cell `(l, c, d)`
combines the draw at flat offset `devIdx`, every in-range cell a distinct
one — and exactly `num_lots * num_chps` chip-level draws — cell
`(l, c, d)` combines the draw at offset `chpIdx`, independent of `d`, so
the `num_devs` devices of one `(lot, chip)` pair share it and distinct
pairs get distinct draws; with `sensor_count = 0` those are all the
device/chip draws the call consumes. -/
theorem C3_dev_chip_draw_structure (m : EnvVrtnMdl) (base : ℚ)
    (sc num_devs num_chps num_lots : Nat) (s : VrtnState) :
    (∃ b : ℚ, ∀ l c d,
        (m.gen_env_vrtns base sc num_devs num_chps num_lots s).grid.val l c d =
          m.op (m.op (m.op base
              (m.dev_vrtn_mdl.stream (s.dev + devIdx num_chps num_devs l c d)))
            (m.chp_vrtn_mdl.stream (s.chp + chpIdx num_chps l c))) b) ∧
    (∀ l c d, l < num_lots → c < num_chps → d < num_devs →
        devIdx num_chps num_devs l c d < num_lots * num_chps * num_devs) ∧
    (∀ l c d l' c' d', c < num_chps → d < num_devs → c' < num_chps → d' < num_devs →
        (devIdx num_chps num_devs l c d = devIdx num_chps num_devs l' c' d' ↔
          (l, c, d) = (l', c', d'))) ∧
    (∀ l c, l < num_lots → c < num_chps → chpIdx num_chps l c < num_lots * num_chps) ∧
    (∀ l c l' c', c < num_chps → c' < num_chps →
        (chpIdx num_chps l c = chpIdx num_chps l' c' ↔ (l, c) = (l', c'))) ∧
    (sc = 0 →
      (m.gen_env_vrtns base sc num_devs num_chps num_lots s).state.dev =
          s.dev + num_lots * num_chps * num_devs ∧
      (m.gen_env_vrtns base sc num_devs num_chps num_lots s).state.chp =
          s.chp + num_lots * num_chps) := by
  refine ⟨?_, fun l c d hl hc hd => devIdx_lt hl hc hd,
    fun l c d l' c' d' hc hd hc' hd' => devIdx_inj hc hd hc' hd',
    fun l c hl hc => chpIdx_lt hl hc,
    fun l c l' c' hc hc' => chpIdx_inj hc hc', ?_⟩
  · by_cases hsc : sc = 0
    · subst hsc
      rw [m.gen_env_vrtns_zero base num_devs num_chps num_lots s]
      exact ⟨m.batch_vrtn_mdl.stream (s.batch + 1), fun l c d => rfl⟩
    · rw [m.gen_env_vrtns_of_ne base sc num_devs num_chps num_lots s hsc]
      exact ⟨m.batch_vrtn_mdl.stream s.batch, fun l c d => rfl⟩
  · intro hsc
    subst hsc
    rw [m.gen_env_vrtns_zero base num_devs num_chps num_lots s]
    exact ⟨rfl, rfl⟩

/-- `EnvVrtnMdl(vrtn_type='scaling')`: the all-default scaling model
(every sub-model a point mass at 1). -/
def EnvVrtnMdl.mkDefaultScaling : EnvVrtnMdl :=
  { name := none
    vrtn_type := "scaling"
    batch_vrtn_mdl := Deterministic 1
    dev_vrtn_mdl := Deterministic 1
    chp_vrtn_mdl := Deterministic 1
    vrtn_op := "scaling" }

example : EnvVrtnMdl.init none none none "scaling" none = .ok EnvVrtnMdl.mkDefaultScaling := rfl

/-- C4: an `EnvVrtnMdl` constructed with all three sub-models left at
their defaults (point mass at 0 for offset, at 1 for scaling) generates
a grid in which every cell equals the base value exactly, and, when
`sensor_count` is nonzero, a sensor array whose every entry equals the
base value exactly. -/
theorem C4_default_models_yield_base (vt : String)
    (hvt : vt = "offset" ∨ vt = "scaling") (mdl : EnvVrtnMdl)
    (hm : EnvVrtnMdl.init none none none vt none = .ok mdl) (base : ℚ)
    (sc num_devs num_chps num_lots : Nat) (s : VrtnState) :
    (∀ l c d, (mdl.gen_env_vrtns base sc num_devs num_chps num_lots s).grid.val l c d = base) ∧
    (sc ≠ 0 → ∃ g : Arr1D,
      (mdl.gen_env_vrtns base sc num_devs num_chps num_lots s).sensors = some g ∧
      g.len = sc ∧ ∀ j, g.val j = base) := by
  rcases hvt with rfl | rfl
  · rw [show EnvVrtnMdl.init none none none "offset" none = .ok EnvVrtnMdl.mkDefault from rfl]
      at hm
    have hmd : mdl = EnvVrtnMdl.mkDefault := (Except.ok.inj hm).symm
    subst hmd
    have hne : EnvVrtnMdl.mkDefault.vrtn_op ≠ "scaling" := by decide
    constructor
    · intro l c d
      by_cases hsc : sc = 0
      · subst hsc
        rw [EnvVrtnMdl.gen_env_vrtns_zero]
        simp only [EnvVrtnMdl.gridPreBatch, EnvVrtnMdl.op_eq_add hne]
        norm_num [EnvVrtnMdl.mkDefault, Deterministic]
      · rw [EnvVrtnMdl.gen_env_vrtns_of_ne _ _ _ _ _ _ _ hsc]
        simp only [EnvVrtnMdl.gridPreBatch, EnvVrtnMdl.op_eq_add hne]
        norm_num [EnvVrtnMdl.mkDefault, Deterministic]
    · intro hsc
      rw [EnvVrtnMdl.gen_env_vrtns_of_ne _ _ _ _ _ _ _ hsc]
      refine ⟨_, rfl, rfl, fun j => ?_⟩
      simp only [EnvVrtnMdl.sensorPreBatch, EnvVrtnMdl.op_eq_add hne]
      norm_num [EnvVrtnMdl.mkDefault, Deterministic]
  · rw [show EnvVrtnMdl.init none none none "scaling" none = .ok EnvVrtnMdl.mkDefaultScaling
        from rfl] at hm
    have hmd : mdl = EnvVrtnMdl.mkDefaultScaling := (Except.ok.inj hm).symm
    subst hmd
    have heq : EnvVrtnMdl.mkDefaultScaling.vrtn_op = "scaling" := rfl
    constructor
    · intro l c d
      by_cases hsc : sc = 0
      · subst hsc
        rw [EnvVrtnMdl.gen_env_vrtns_zero]
        simp only [EnvVrtnMdl.gridPreBatch, EnvVrtnMdl.op_eq_mul heq]
        norm_num [EnvVrtnMdl.mkDefaultScaling, Deterministic]
      · rw [EnvVrtnMdl.gen_env_vrtns_of_ne _ _ _ _ _ _ _ hsc]
        simp only [EnvVrtnMdl.gridPreBatch, EnvVrtnMdl.op_eq_mul heq]
        norm_num [EnvVrtnMdl.mkDefaultScaling, Deterministic]
    · intro hsc
      rw [EnvVrtnMdl.gen_env_vrtns_of_ne _ _ _ _ _ _ _ hsc]
      refine ⟨_, rfl, rfl, fun j => ?_⟩
      simp only [EnvVrtnMdl.sensorPreBatch, EnvVrtnMdl.op_eq_mul heq]
      norm_num [EnvVrtnMdl.mkDefaultScaling, Deterministic]

/-- Witness for C4: the all-default offset model at base value 25, three
sensors, a 2x2x2 grid. -/
theorem C4_default_models_yield_base_witness :
    (∀ l c d,
      (EnvVrtnMdl.mkDefault.gen_env_vrtns 25 3 2 2 2 ⟨0, 0, 0⟩).grid.val l c d = 25) ∧
    (3 ≠ 0 → ∃ g : Arr1D,
      (EnvVrtnMdl.mkDefault.gen_env_vrtns 25 3 2 2 2 ⟨0, 0, 0⟩).sensors = some g ∧
      g.len = 3 ∧ ∀ j, g.val j = 25) :=
  C4_default_models_yield_base "offset" (Or.inl rfl) EnvVrtnMdl.mkDefault rfl 25 3 2 2 2 ⟨0, 0, 0⟩

lemma scFalsy_lookup_none {sensor_counts : Option (List (String × Nat))}
    (h : scFalsy sensor_counts = true) (cond : String) :
    scLookup sensor_counts cond = none := by
  cases sensor_counts with
  | none => rfl
  | some l =>
    have hl : l = [] := by simpa [scFalsy] using h
    subst hl
    rfl

lemma scLookup_pos {sensor_counts : Option (List (String × Nat))}
    (hpos : ∀ p ∈ sensor_counts.getD [], 0 < p.2) {cond : String} {k : Nat}
    (hk : scLookup sensor_counts cond = some k) : 0 < k := by
  cases sensor_counts with
  | none => simp [scLookup] at hk
  | some l =>
    simp only [scLookup, Option.map_eq_some'] at hk
    obtain ⟨p, hfind, hsnd⟩ := hk
    have hmem : p ∈ l := List.mem_of_find?_eq_some hfind
    have := hpos p (by simpa using hmem)
    omega

lemma gen_grid_shape (m : EnvVrtnMdl) (base : ℚ) (sc num_devs num_chps num_lots : Nat)
    (s : VrtnState) :
    (m.gen_env_vrtns base sc num_devs num_chps num_lots s).grid.num_lots = num_lots ∧
    (m.gen_env_vrtns base sc num_devs num_chps num_lots s).grid.num_chps = num_chps ∧
    (m.gen_env_vrtns base sc num_devs num_chps num_lots s).grid.num_devs = num_devs := by
  by_cases hsc : sc = 0
  · subst hsc
    rw [m.gen_env_vrtns_zero base num_devs num_chps num_lots s]
    exact ⟨rfl, rfl, rfl⟩
  · rw [m.gen_env_vrtns_of_ne base sc num_devs num_chps num_lots s hsc]
    exact ⟨rfl, rfl, rfl⟩

lemma gen_sensors_len (m : EnvVrtnMdl) (base : ℚ) (sc num_devs num_chps num_lots : Nat)
    (s : VrtnState) (hsc : sc ≠ 0) :
    ∃ g : Arr1D, (m.gen_env_vrtns base sc num_devs num_chps num_lots s).sensors = some g ∧
      g.len = sc := by
  rw [m.gen_env_vrtns_of_ne base sc num_devs num_chps num_lots s hsc]
  exact ⟨_, rfl, rfl⟩

/-- Closed form of the per-condition loop of `gen_env_cond_vals`: under
positive sensor counts it never fails, the grids cover every condition
(each from one `gen_env_vrtns` call) and the sensor arrays cover exactly
the conditions that appear in `sensor_counts` (extracted from the same
call as that condition's grid). -/
lemma genCondLoop_eq (env : PhysTestEnv) (nv : Nat × Nat × Nat)
    (sensor_counts : Option (List (String × Nat))) (st : String → VrtnState)
    (hpos : ∀ p ∈ sensor_counts.getD [], 0 < p.2) :
    ∀ bv : List (String × ℚ),
      genCondLoop env nv sensor_counts st bv = .ok
        (bv.map (fun p => (p.1,
          ((env.get_vrtn_mdl p.1).gen_env_vrtns p.2 ((scLookup sensor_counts p.1).getD 0)
            nv.2.2 nv.2.1 nv.1 (st p.1)).grid)),
         (bv.filter (fun p => (scLookup sensor_counts p.1).isSome)).map
          (fun p => (p.1,
            (((env.get_vrtn_mdl p.1).gen_env_vrtns p.2 ((scLookup sensor_counts p.1).getD 0)
              nv.2.2 nv.2.1 nv.1 (st p.1)).sensors).getD ⟨0, fun _ => 0⟩)))
  | [] => rfl
  | (cond, base) :: rest => by
    have ih := genCondLoop_eq env nv sensor_counts st hpos rest
    by_cases hcond : (scFalsy sensor_counts || (scLookup sensor_counts cond).isNone) = true
    · have hor : scFalsy sensor_counts = true ∨ (scLookup sensor_counts cond).isNone = true := by
        simpa using hcond
      have hnone : scLookup sensor_counts cond = none := by
        rcases hor with h | h
        · exact scFalsy_lookup_none h cond
        · exact Option.isNone_iff_eq_none.mp h
      simp only [genCondLoop]
      rw [if_pos hcond, ih]
      simp [Except.map, hnone]
    · have hnn : ¬(scLookup sensor_counts cond).isNone = true := fun h =>
        hcond (by simp [h])
      cases hlk : scLookup sensor_counts cond with
      | none => exact absurd (by simp [hlk]) hnn
      | some k =>
        have hk0 : k ≠ 0 := (scLookup_pos hpos hlk).ne'
        simp only [genCondLoop]
        rw [if_neg hcond, hlk]
        simp only [Option.getD_some]
        rw [(env.get_vrtn_mdl cond).gen_env_vrtns_of_ne base k nv.2.2 nv.2.1 nv.1 (st cond) hk0]
        rw [ih]
        simp only [Except.map]
        simp [hlk,
          (env.get_vrtn_mdl cond).gen_env_vrtns_of_ne base k nv.2.2 nv.2.1 nv.1 (st cond) hk0]

lemma keysMapped (g : String × ℚ → NdGrid) (bv : List (String × ℚ)) :
    (bv.map (fun p => (p.1, g p))).map Prod.fst = bv.map Prod.fst := by
  induction bv with
  | nil => rfl
  | cons p rest ih => simp [ih]

lemma keysFiltered (P : String → Bool) (g : String × ℚ → Arr1D) :
    ∀ bv : List (String × ℚ),
      ((bv.filter (fun p => P p.1)).map (fun p => (p.1, g p))).map Prod.fst =
        (bv.map Prod.fst).filter P
  | [] => rfl
  | p :: rest => by
    by_cases h : P p.1
    · simp [List.filter_cons, h, keysFiltered P g rest]
    · simp [List.filter_cons, h, keysFiltered P g rest]

/-- C5: with an integer `num_vals = n` and positive sensor counts,
`gen_env_cond_vals` succeeds; its `true_vals` covers exactly the keys of
`base_vals` with grids of shape `(1, 1, n)`, its `sensor_vals` covers
exactly the keys of `base_vals` that occur in `sensor_counts` (the empty
mapping when `sensor_counts` is absent) with arrays of the requested
lengths, and for each sensor-bearing condition the grid and sensor array
are the two components of one and the same `gen_env_vrtns` call. -/
theorem C5_gen_env_cond_vals_shape (env : PhysTestEnv) (base_vals : List (String × ℚ))
    (n : Nat) (sensor_counts : Option (List (String × Nat))) (st : String → VrtnState)
    (hpos : ∀ p ∈ sensor_counts.getD [], 0 < p.2) :
    ∃ tv sv,
      env.gen_env_cond_vals base_vals (Sum.inl n) sensor_counts st = .ok (tv, sv) ∧
      tv = base_vals.map (fun p => (p.1,
        ((env.get_vrtn_mdl p.1).gen_env_vrtns p.2 ((scLookup sensor_counts p.1).getD 0)
          n 1 1 (st p.1)).grid)) ∧
      sv = (base_vals.filter (fun p => (scLookup sensor_counts p.1).isSome)).map
        (fun p => (p.1,
          (((env.get_vrtn_mdl p.1).gen_env_vrtns p.2 ((scLookup sensor_counts p.1).getD 0)
            n 1 1 (st p.1)).sensors).getD ⟨0, fun _ => 0⟩)) ∧
      tv.map Prod.fst = base_vals.map Prod.fst ∧
      sv.map Prod.fst = (base_vals.map Prod.fst).filter
        (fun cond => (scLookup sensor_counts cond).isSome) ∧
      (sensor_counts = none → sv = []) ∧
      (∀ p ∈ tv, p.2.num_lots = 1 ∧ p.2.num_chps = 1 ∧ p.2.num_devs = n) ∧
      (∀ p ∈ sv, scLookup sensor_counts p.1 = some p.2.len) := by
  have hloop := genCondLoop_eq env (1, 1, n) sensor_counts st hpos base_vals
  refine ⟨_, _, ?_, rfl, rfl,
    keysMapped (fun p =>
      ((env.get_vrtn_mdl p.1).gen_env_vrtns p.2 ((scLookup sensor_counts p.1).getD 0)
        n 1 1 (st p.1)).grid) base_vals,
    keysFiltered (fun cond => (scLookup sensor_counts cond).isSome)
      (fun p =>
        (((env.get_vrtn_mdl p.1).gen_env_vrtns p.2 ((scLookup sensor_counts p.1).getD 0)
          n 1 1 (st p.1)).sensors).getD ⟨0, fun _ => 0⟩) base_vals,
    ?_, ?_, ?_⟩
  · show (genCondLoop env (1, 1, n) sensor_counts st base_vals).map _ = _
    rw [hloop]
    by_cases hf : scFalsy sensor_counts = true
    · have hempty : base_vals.filter (fun p => (scLookup sensor_counts p.1).isSome) = [] := by
        rw [List.filter_eq_nil_iff]
        intro p _
        simp [scFalsy_lookup_none hf p.1]
      simp [Except.map, hf, hempty]
    · simp [Except.map, hf]
  · intro h
    subst h
    have hemp : base_vals.filter (fun p => (scLookup none p.1).isSome) = [] := by
      rw [List.filter_eq_nil_iff]
      intro p _
      simp [scLookup]
    rw [hemp]
    rfl
  · intro p hp
    obtain ⟨q, _, rfl⟩ := List.mem_map.mp hp
    exact gen_grid_shape _ _ _ _ _ _ _
  · intro p hp
    obtain ⟨q, hq, rfl⟩ := List.mem_map.mp hp
    have hsome : (scLookup sensor_counts q.1).isSome = true := (List.mem_filter.mp hq).2
    obtain ⟨k, hk⟩ := Option.isSome_iff_exists.mp hsome
    have hk0 : k ≠ 0 := (scLookup_pos hpos hk).ne'
    obtain ⟨g, hg, hglen⟩ :=
      gen_sensors_len (env.get_vrtn_mdl q.1) q.2 k n 1 1 (st q.1) hk0
    simp only [hk, Option.getD_some, hg]
    rw [hglen]

/-- `PhysTestEnv()` with an empty registry. -/
def envEmpty : PhysTestEnv := ⟨"unspecified", [], []⟩

/-- All sampling cursors at zero for every condition. -/
def stZero : String → VrtnState := fun _ => ⟨0, 0, 0⟩

/-- Witness for C5: the spec's example
`gen_env_cond_vals({"temp": 25}, sensor_counts={"temp": 4})`. -/
theorem C5_gen_env_cond_vals_shape_witness :
    (∀ p ∈ (some [(("temp" : String), (4 : Nat))]).getD ([] : List (String × Nat)), 0 < p.2) ∧
    ∃ tv sv,
      envEmpty.gen_env_cond_vals [("temp", 25)] (Sum.inl 1) (some [("temp", 4)]) stZero =
        .ok (tv, sv) ∧
      tv = [(("temp" : String), (25 : ℚ))].map (fun p => (p.1,
        ((envEmpty.get_vrtn_mdl p.1).gen_env_vrtns p.2
          ((scLookup (some [("temp", 4)]) p.1).getD 0) 1 1 1 (stZero p.1)).grid)) ∧
      sv = ([(("temp" : String), (25 : ℚ))].filter
          (fun p => (scLookup (some [("temp", 4)]) p.1).isSome)).map
        (fun p => (p.1,
          (((envEmpty.get_vrtn_mdl p.1).gen_env_vrtns p.2
            ((scLookup (some [("temp", 4)]) p.1).getD 0) 1 1 1 (stZero p.1)).sensors).getD
              ⟨0, fun _ => 0⟩)) ∧
      tv.map Prod.fst = [(("temp" : String), (25 : ℚ))].map Prod.fst ∧
      sv.map Prod.fst = ([(("temp" : String), (25 : ℚ))].map Prod.fst).filter
        (fun cond => (scLookup (some [("temp", 4)]) cond).isSome) ∧
      ((some [(("temp" : String), (4 : Nat))]) = none → sv = []) ∧
      (∀ p ∈ tv, p.2.num_lots = 1 ∧ p.2.num_chps = 1 ∧ p.2.num_devs = 1) ∧
      (∀ p ∈ sv, scLookup (some [("temp", 4)]) p.1 = some p.2.len) :=
  ⟨by decide,
    C5_gen_env_cond_vals_shape envEmpty [("temp", 25)] 1 (some [("temp", 4)]) stZero
      (by decide)⟩

/-- The surface type of a `measure` argument or return value. -/
inductive ValsKind where
  | scalar
  | arr
  | series
deriving DecidableEq

def MeasVals.kind : MeasVals → ValsKind
  | .scalar _ => .scalar
  | .arr _ => .arr
  | .series _ => .series

/-- Element count of a `measure` value (a scalar counts as one). -/
def MeasVals.size : MeasVals → Nat
  | .scalar _ => 1
  | .arr xs => xs.length
  | .series xs => xs.length

lemma applyStages_length (m : MeasInstrument) (xs : List PyFloat) :
    (m.applyStages xs).length = xs.length := by
  simp only [MeasInstrument.applyStages]
  rcases m.error with _ | err <;> rcases hp : m.precision with _ | p <;>
    rcases m.range with _ | ⟨lo, hi⟩ <;> simp <;> split <;> simp

/-- C6: `measure` returns a value of exactly the input's type — Series to
Series, array to array, scalar to scalar — and of the same length, for
every instrument configuration. -/
theorem C6_measure_type_roundtrip (m : MeasInstrument) (v : MeasVals) :
    (m.measure v).kind = v.kind ∧ (m.measure v).size = v.size := by
  cases v with
  | scalar x => exact ⟨rfl, rfl⟩
  | arr xs =>
    exact ⟨rfl, by simp [MeasInstrument.measure, MeasVals.size, MeasVals.toSeries,
      applyStages_length]⟩
  | series xs =>
    exact ⟨rfl, by simp [MeasInstrument.measure, MeasVals.size, MeasVals.toSeries,
      applyStages_length]⟩

/-- C7 (amended): for a configured NONZERO precision `p` (Python's
truthiness guard `if self._precision:` skips the stage when `p = 0`),
`measure` with no error and no range rounds each element `x` to
`p - floor(log10 |x|) - 1` decimal places, elements equal to 0 or to an
infinity passing through unchanged. -/
theorem C7_sig_fig_rounding (name : String) (p : ℤ) (hp : p ≠ 0)
    (xs : List PyFloat) (x : ℚ) :
    ((MeasInstrument.mk name (some p) none none).measure (.series xs) =
      .series (xs.map (fun v => match v with
        | .fin q => if q = 0 then PyFloat.fin q
            else .fin (pyRound q (p - Int.log 10 |q| - 1))
        | .inf b => .inf b))) ∧
    (x ≠ 0 → (MeasInstrument.mk name (some p) none none).measure (.scalar (.fin x)) =
      .scalar (.fin (pyRound x (p - Int.log 10 |x| - 1)))) ∧
    ((MeasInstrument.mk name (some p) none none).measure (.scalar (.fin 0)) =
      .scalar (.fin 0)) ∧
    (∀ b, (MeasInstrument.mk name (some p) none none).measure (.scalar (.inf b)) =
      .scalar (.inf b)) := by
  have hstage : ∀ ys : List PyFloat,
      (MeasInstrument.mk name (some p) none none).applyStages ys =
        ys.map (precisionApply p) := by
    intro ys
    simp only [MeasInstrument.applyStages]
    rw [if_neg hp]
  have hfun : ∀ v : PyFloat, precisionApply p v = (match v with
      | .fin q => if q = 0 then PyFloat.fin q
          else .fin (pyRound q (p - Int.log 10 |q| - 1))
      | .inf b => .inf b) := by
    intro v
    cases v <;> rfl
  refine ⟨?_, ?_, ?_, fun b => ?_⟩
  · simp only [MeasInstrument.measure, MeasVals.toSeries, hstage]
    rw [List.map_congr_left fun v _ => hfun v]
  · intro hx
    simp only [MeasInstrument.measure, MeasVals.toSeries, hstage, List.map_cons,
      List.map_nil, List.headI, precisionApply, sigFigRound]
    rw [if_neg hx]
  · simp [MeasInstrument.measure, MeasVals.toSeries, hstage, precisionApply]
  · simp only [MeasInstrument.measure, MeasVals.toSeries, hstage, List.map_cons,
      List.map_nil, List.headI, precisionApply]

/-- Counterexample to C7 as stated: with `precision = 0` configured, the
Python guard `if self._precision:` is falsy, so `measure` passes 5
through unchanged, while rounding 5 to 0 significant figures per the
claim's formula would give `round(5, -1) = 0 ≠ 5`. -/
theorem C7_precision_zero_counterexample :
    ((MeasInstrument.mk "generic" (some 0) none none).measure (.scalar (.fin 5)) =
      .scalar (.fin 5)) ∧
    pyRound 5 ((0 : ℤ) - Int.log 10 |(5 : ℚ)| - 1) = 0 ∧ (5 : ℚ) ≠ 0 := by
  refine ⟨rfl, ?_, by norm_num⟩
  have hlog : Int.log 10 |(5 : ℚ)| = 0 := by
    rw [abs_of_pos (by norm_num)]
    rw [Int.log_of_one_le_right _ (by norm_num)]
    have hfl : ⌊(5 : ℚ)⌋₊ = 5 := by
      rw [Nat.floor_eq_iff (by norm_num)]
      norm_num
    rw [hfl]
    have hlg : Nat.log 10 5 = 0 :=
      Nat.log_eq_of_pow_le_of_lt_pow (by norm_num) (by norm_num)
    rw [hlg]
    rfl
  rw [hlog]
  norm_num
  have harg : (5 : ℚ) * (10 : ℚ) ^ (-1 : ℤ) = 1 / 2 := by
    rw [zpow_neg]
    norm_num
  have hrhe : roundHalfEven (1 / 2) = 0 := by
    have h : (⌊(1 / 2 : ℚ)⌋ : ℤ) = 0 := by
      rw [Int.floor_eq_iff]
      constructor <;> norm_num
    simp only [roundHalfEven, h]
    norm_num
  simp only [pyRound, harg, hrhe]
  norm_num

/-- Witness for C7: precision 3, no error, no range: 12345.6 measures as
12300 (3 significant figures), 0 as 0, and +inf as +inf. -/
theorem C7_sig_fig_rounding_witness :
    ((3 : ℤ) ≠ 0) ∧
    ((MeasInstrument.mk "temp" (some 3) none none).measure (.scalar (.fin (61728 / 5))) =
      .scalar (.fin 12300)) ∧
    ((MeasInstrument.mk "temp" (some 3) none none).measure (.scalar (.fin 0)) =
      .scalar (.fin 0)) ∧
    ((MeasInstrument.mk "temp" (some 3) none none).measure (.scalar (.inf true)) =
      .scalar (.inf true)) := by
  have h := C7_sig_fig_rounding "temp" 3 (by decide) [] (61728 / 5)
  refine ⟨by decide, ?_, h.2.2.1, h.2.2.2 true⟩
  rw [h.2.1 (by norm_num)]
  have hlog : Int.log 10 |(61728 / 5 : ℚ)| = 4 := by
    rw [abs_of_pos (by norm_num)]
    rw [Int.log_of_one_le_right _ (by norm_num)]
    have hfl : ⌊(61728 / 5 : ℚ)⌋₊ = 12345 := by
      rw [Nat.floor_eq_iff (by norm_num)]
      norm_num
    rw [hfl]
    have hlg : Nat.log 10 12345 = 4 :=
      Nat.log_eq_of_pow_le_of_lt_pow (by norm_num) (by norm_num)
    rw [hlg]
    rfl
  rw [hlog]
  norm_num
  have harg : (61728 / 5 : ℚ) * (10 : ℚ) ^ (-2 : ℤ) = 61728 / 500 := by
    rw [zpow_neg]
    norm_num
  have hrhe : roundHalfEven (61728 / 500) = 123 := by
    have hfh : (⌊(61728 / 500 : ℚ)⌋ : ℤ) = 123 := by
      rw [Int.floor_eq_iff]
      constructor <;> norm_num
    simp only [roundHalfEven, hfh]
    norm_num
  simp only [pyRound, harg, hrhe]
  rw [zpow_neg]
  norm_num

/-- C8: constructing an `EnvVrtnMdl` with a `vrtn_type` outside
{scaling, offset} fails with an `InvalidTypeError` whose message names
the offending model and the two allowed values, and no object is
produced; with `vrtn_type` scaling or offset construction succeeds. -/
theorem C8_vrtn_type_validation (dev chp batch : Option RandomVar) (vt : String)
    (nm : Option String) :
    (vt ∉ (["scaling", "offset"] : List String) →
      EnvVrtnMdl.init dev chp batch vt nm = .error (.invalidType
        ("Latent " ++ pyStrOpt nm ++
          " variation type can only be one of 'scaling', 'offset'."))) ∧
    (vt ∈ (["scaling", "offset"] : List String) →
      ∃ m : EnvVrtnMdl, EnvVrtnMdl.init dev chp batch vt nm = .ok m ∧
        m.vrtn_type = vt ∧ m.vrtn_op = vt ∧ m.name = nm) := by
  constructor
  · intro h
    simp only [EnvVrtnMdl.init]
    rw [if_pos h]
  · intro h
    simp only [EnvVrtnMdl.init]
    rw [if_neg (not_not_intro h)]
    exact ⟨_, rfl, rfl, rfl, rfl⟩

/-- C9: `get_vrtn_mdl` and `get_meas_instm` are total; a registered
parameter yields its registered object and an unregistered one yields a
fresh ideal default — `EnvVrtnMdl()` with no variation and
`MeasInstrument(prm)` whose `measure` is the identity function. -/
theorem C9_registry_fallback (env : PhysTestEnv) (prm : String) :
    (∀ m, lookupAttr env.vrtn_mdls prm = some m → env.get_vrtn_mdl prm = m) ∧
    (lookupAttr env.vrtn_mdls prm = none →
      env.get_vrtn_mdl prm = EnvVrtnMdl.mkDefault) ∧
    (∀ i, lookupAttr env.meas_instms prm = some i → env.get_meas_instm prm = i) ∧
    (lookupAttr env.meas_instms prm = none →
      env.get_meas_instm prm = MeasInstrument.ideal prm) ∧
    (lookupAttr env.meas_instms prm = none →
      ∀ v : MeasVals, (env.get_meas_instm prm).measure v = v) := by
  refine ⟨fun m h => ?_, fun h => ?_, fun i h => ?_, fun h => ?_, fun h v => ?_⟩
  · simp only [PhysTestEnv.get_vrtn_mdl, h, Option.getD_some]
  · simp only [PhysTestEnv.get_vrtn_mdl, h, Option.getD_none]
  · simp only [PhysTestEnv.get_meas_instm, h, Option.getD_some]
  · simp only [PhysTestEnv.get_meas_instm, h, Option.getD_none]
  · simp only [PhysTestEnv.get_meas_instm, h, Option.getD_none]
    cases v <;> rfl

/-- Counterexample to C10 as stated: dict-form construction does NOT
leave the passed instrument's fields unchanged — an instrument passed
under key "temp" with name "orig" comes out of `__init__` with its
`name` overwritten to "temp". -/
theorem C10_dict_init_renames_counterexample :
    (PhysTestEnv.initFromDicts [] [("temp", MeasInstrument.ideal "orig")]
        "unspecified").meas_instms_after = [MeasInstrument.ideal "temp"] ∧
      ("orig" : String) ≠ "temp" := by
  constructor
  · rfl
  · decide

/-- C10 (amended): dict-form construction overwrites each passed
object's `name` with its dict key — mutating the caller's objects — but
changes no other field, and the registry it builds holds exactly those
renamed objects keyed by their new names; all later operations are pure
reads of that registry. -/
theorem C10_construction_renames_only_name (env_vrtns : List (String × EnvVrtnMdl))
    (meas_instms : List (String × MeasInstrument)) (env_name : String) :
    ((PhysTestEnv.initFromDicts env_vrtns meas_instms env_name).env_vrtns_after =
      env_vrtns.map (fun p => { p.2 with name := some p.1 })) ∧
    ((PhysTestEnv.initFromDicts env_vrtns meas_instms env_name).meas_instms_after =
      meas_instms.map (fun p => { p.2 with name := p.1 })) ∧
    ((PhysTestEnv.initFromDicts env_vrtns meas_instms env_name).env.name = env_name) ∧
    ((PhysTestEnv.initFromDicts env_vrtns meas_instms env_name).env.vrtn_mdls =
      (env_vrtns.map (fun p => { p.2 with name := some p.1 })).map
        (fun m => (pyStrOpt m.name, m))) ∧
    ((PhysTestEnv.initFromDicts env_vrtns meas_instms env_name).env.meas_instms =
      (meas_instms.map (fun p => { p.2 with name := p.1 })).map
        (fun i => (i.name, i))) ∧
    (∀ p ∈ env_vrtns,
      ({ p.2 with name := some p.1 } : EnvVrtnMdl).name = some p.1 ∧
      ({ p.2 with name := some p.1 } : EnvVrtnMdl).vrtn_type = p.2.vrtn_type ∧
      ({ p.2 with name := some p.1 } : EnvVrtnMdl).batch_vrtn_mdl = p.2.batch_vrtn_mdl ∧
      ({ p.2 with name := some p.1 } : EnvVrtnMdl).dev_vrtn_mdl = p.2.dev_vrtn_mdl ∧
      ({ p.2 with name := some p.1 } : EnvVrtnMdl).chp_vrtn_mdl = p.2.chp_vrtn_mdl ∧
      ({ p.2 with name := some p.1 } : EnvVrtnMdl).vrtn_op = p.2.vrtn_op) ∧
    (∀ p ∈ meas_instms,
      ({ p.2 with name := p.1 } : MeasInstrument).name = p.1 ∧
      ({ p.2 with name := p.1 } : MeasInstrument).precision = p.2.precision ∧
      ({ p.2 with name := p.1 } : MeasInstrument).error = p.2.error ∧
      ({ p.2 with name := p.1 } : MeasInstrument).range = p.2.range) :=
  ⟨rfl, rfl, rfl, rfl, rfl,
    fun _ _ => ⟨rfl, rfl, rfl, rfl, rfl, rfl⟩,
    fun _ _ => ⟨rfl, rfl, rfl, rfl⟩⟩
